import Mathlib

/-!
Signal trap of the Docker engine (`pkg/signal/trap.go`).

A shallow embedding of `Trap`: the selection of the monitored signals from the
`DEBUG` environment variable, the per-signal handler (the goroutine body of
lines 38-59) as a function on an explicit process state, and the handler as a
sequence of atomic steps for reasoning about two handlers running at once.
-/

namespace Trap

/-! ## Data model -/

/-- A signal is identified by its number (`syscall.Signal` is a Go `int`). -/
abbrev Signal := Int

/-- Modelled from the spec: the number of `os.Interrupt` (Go's `syscall.SIGINT`)
is 2, as in the spec's scenario `128 + 2 = 130`; the constant is declared in
Go's standard library. -/
def Interrupt : Signal := 2

/-- Modelled from the spec: the number of `syscall.SIGTERM` is 15 (forced exit
status 143); the constant is declared in Go's standard library. -/
def SIGTERM : Signal := 15

/-- Modelled from the spec: the number of `syscall.SIGQUIT` is 3 (exit status
131); the constant is declared in Go's standard library. -/
def SIGQUIT : Signal := 3

/-- What a handler does that can be observed from outside, in program order. -/
inductive Event where
  /-- Line 39: `log.Printf("Received signal '%v', starting shutdown of docker...\n", sig)`. -/
  | logReceived (sig : Signal)
  /-- Line 54: `log.Printf("Force shutdown of docker, interrupting cleanup\n")`. -/
  | logForce
  /-- Line 48: the call `cleanup()`. -/
  | cleanupCall
  /-- Lines 49 and 58: a call `os.Exit(code)`. -/
  | exitCall (code : Int)
  deriving DecidableEq, Repr

/-- Which `os.Exit` is linked in: the real one, which ends the process so that
nothing after the call runs, or a recording stub that returns to its caller. -/
inductive Terminator where
  | real
  | stub
  deriving DecidableEq, Repr

/-- The state of the process as far as `Trap` is concerned. `ext` is the state
owned by the caller, on which the cleanup callback acts. -/
structure World (σ : Type) where
  /-- The variable `interruptCount` (a `uint32`). -/
  interruptCount : Nat
  /-- The state the cleanup callback works on. -/
  ext : σ
  /-- Everything observable done so far, oldest first. -/
  trace : List Event
  /-- The status the process ended with, once the real `os.Exit` has run. -/
  exited : Option Int
  deriving DecidableEq, Repr

/-- The state right after `interruptCount := uint32(0)`. -/
def World.init {σ : Type} (e : σ) : World σ :=
  { interruptCount := 0, ext := e, trace := [], exited := none }

/-! ## Primitive operations -/

/-- Go's `int` on a 64-bit platform: addition wraps around in two's complement. -/
def wrapInt (x : Int) : Int := (x + 2 ^ 63) % 2 ^ 64 - 2 ^ 63

/-- `os.Getenv(key)` on an environment given as a list of bindings: the value
of the first binding of `key`, and the empty string when there is none. -/
def Getenv (env : List (String × String)) (key : String) : String :=
  (env.lookup key).getD ""

/-- `atomic.LoadUint32(&interruptCount)`. -/
def LoadUint32 {σ : Type} (w : World σ) : Nat := w.interruptCount

/-- `atomic.AddUint32(&interruptCount, delta)`: addition modulo `2^32`. -/
def AddUint32 {σ : Type} (delta : Nat) (w : World σ) : World σ :=
  { w with interruptCount := (w.interruptCount + delta) % 2 ^ 32 }

/-- Append one event to the trace. -/
def emit {σ : Type} (e : Event) (w : World σ) : World σ :=
  { w with trace := w.trace ++ [e] }

/-- The call `cleanup()`: the callback runs on the caller's state and returns. -/
def callCleanup {σ : Type} (cleanup : σ → σ) (w : World σ) : World σ :=
  emit Event.cleanupCall { w with ext := cleanup w.ext }

/-- The call `os.Exit(code)` followed by the rest `k` of the handler. The real
terminator ends the process, so `k` never runs; the stub records the call and
returns, so `k` runs. -/
def osExit {σ : Type} (t : Terminator) (code : Int) (k : World σ → World σ)
    (w : World σ) : World σ :=
  match t with
  | Terminator.real => { emit (Event.exitCall code) w with exited := some code }
  | Terminator.stub => k (emit (Event.exitCall code) w)

/-! ## The monitored signals (lines 30-34) -/

/-- The slice `signals` built by `Trap` from the environment. -/
def signals (env : List (String × String)) : List Signal :=
  let signals := [Interrupt, SIGTERM]
  if Getenv env "DEBUG" = "" then signals ++ [SIGQUIT] else signals

/-! ## The handler (lines 38-59) -/

/-- Line 58, the statement after the `switch`: `os.Exit(128 + int(sig.(syscall.Signal)))`,
after which the handler body ends. -/
def exitForced {σ : Type} (t : Terminator) (sig : Signal) (w : World σ) : World σ :=
  osExit t (wrapInt (128 + sig)) id w

/-- The body of the goroutine started for one received signal `sig`. -/
def handler {σ : Type} (t : Terminator) (cleanup : σ → σ) (sig : Signal)
    (w : World σ) : World σ :=
  let w := emit (Event.logReceived sig) w
  if sig = Interrupt ∨ sig = SIGTERM then
    if LoadUint32 w < 3 then
      let w := AddUint32 1 w
      if LoadUint32 w = 1 then
        let w := callCleanup cleanup w
        -- `os.Exit(0)`; were it to return, control would leave the `switch`
        osExit t 0 (exitForced t sig) w
      else
        w -- `return`
    else
      let w := emit Event.logForce w
      exitForced t sig w
  else if sig = SIGQUIT then
    exitForced t sig w
  else
    exitForced t sig w

/-- Delivery of one signal to the process after `gosignal.Notify(c, signals...)`:
only the listed signals reach the channel `c` and get a handler, and a process
that has exited handles nothing. -/
def deliver {σ : Type} (env : List (String × String)) (t : Terminator)
    (cleanup : σ → σ) (sig : Signal) (w : World σ) : World σ :=
  if w.exited.isSome then w
  else if sig ∈ signals env then handler t cleanup sig w
  else w

/-- Arrival of one signal at the process, the runtime's part included. A signal
listed in `signals` gets a handler. Any other signal is left to the default
disposition of the runtime, which `Trap` does not decide and which is a
parameter here: `dflt sig = some code` when the default ends the process with
status `code`, `none` when the default ignores the signal. -/
def receive {σ : Type} (env : List (String × String)) (t : Terminator)
    (cleanup : σ → σ) (dflt : Signal → Option Int) (sig : Signal) (w : World σ) : World σ :=
  if w.exited.isSome then w
  else if sig ∈ signals env then handler t cleanup sig w
  else { w with exited := dflt sig }

/-- The handler run for each signal of a list in turn, one after another, for as
long as the process has not exited. -/
def handleAll {σ : Type} (t : Terminator) (cleanup : σ → σ) :
    List Signal → World σ → World σ
  | [], w => w
  | sig :: rest, w =>
    if w.exited.isSome then w
    else handleAll t cleanup rest (handler t cleanup sig w)

/-! ## Observations on a trace -/

/-- Number of calls of the cleanup callback recorded in a trace. -/
def cleanupCalls (tr : List Event) : Nat := tr.count Event.cleanupCall

/-- The exit calls recorded in a trace, in order. -/
def exitCalls : List Event → List Int
  | [] => []
  | Event.exitCall c :: rest => c :: exitCalls rest
  | _ :: rest => exitCalls rest

/-- The log lines recorded in a trace, in order. -/
def logLines : List Event → List Event
  | [] => []
  | Event.logReceived s :: rest => Event.logReceived s :: logLines rest
  | Event.logForce :: rest => Event.logForce :: logLines rest
  | _ :: rest => logLines rest

/-! ## Two handlers at once

`Trap` starts one goroutine per received signal (line 38), so two handler
bodies can run interleaved. Each handler is cut into its atomic steps; a
schedule says which of the two handlers takes the next step. -/

/-- The statement a handler goroutine executes next. -/
inductive Pc where
  /-- Line 39, the `log.Printf`, and the `switch` of line 40. -/
  | start
  /-- Line 43: `atomic.LoadUint32(&interruptCount) < 3`. -/
  | load1
  /-- Line 44: `atomic.AddUint32(&interruptCount, 1)`. -/
  | add
  /-- Line 46: `atomic.LoadUint32(&interruptCount) == 1`. -/
  | load2
  /-- Line 48: `cleanup()` is called. -/
  | cleanup
  /-- Line 49: `cleanup()` has returned, `os.Exit(0)`. -/
  | exit0
  /-- Line 54: the `log.Printf` of the forced shutdown. -/
  | logForce
  /-- Line 58: `os.Exit(128 + int(sig.(syscall.Signal)))`. -/
  | exitForced
  /-- The goroutine has ended (`return` of line 51, or the process exited). -/
  | gone
  deriving DecidableEq, Repr

/-- One handler goroutine: its argument `sig`, its position, and a record of
what it has done: the value its load of line 43 returned, whether it has
executed line 44, and whether it has called the cleanup callback. -/
structure Thread where
  sig : Signal
  pc : Pc
  firstLoad : Option Nat
  added : Bool
  invoked : Bool
  deriving DecidableEq, Repr

/-- Names of the two handlers. -/
inductive Tid where
  | first
  | second
  deriving DecidableEq, Repr

/-- The shared counter, the trace, the exit status, and the two handlers. -/
structure Sys where
  interruptCount : Nat
  trace : List Event
  exited : Option Int
  h1 : Thread
  h2 : Thread
  deriving DecidableEq, Repr

/-- A handler goroutine that has just been started for `sig`. -/
def Thread.spawn (sig : Signal) : Thread :=
  { sig := sig, pc := Pc.start, firstLoad := none, added := false, invoked := false }

/-- Counter 0 and two handlers just started, for `sig1` and `sig2`. -/
def Sys.init (sig1 sig2 : Signal) : Sys :=
  { interruptCount := 0, trace := [], exited := none,
    h1 := Thread.spawn sig1, h2 := Thread.spawn sig2 }

/-- The handler named `i`. -/
def Sys.get (s : Sys) : Tid → Thread
  | Tid.first => s.h1
  | Tid.second => s.h2

/-- Replace the handler named `i`. -/
def Sys.set (s : Sys) (i : Tid) (th : Thread) : Sys :=
  match i with
  | Tid.first => { s with h1 := th }
  | Tid.second => { s with h2 := th }

/-- Handler `i` executes its next atomic step (with the real `os.Exit`: once
the process has exited no goroutine runs any more). -/
def step (i : Tid) (s : Sys) : Sys :=
  if s.exited.isSome then s
  else
    let th := s.get i
    match th.pc with
    | Pc.start =>
      let s := { s with trace := s.trace ++ [Event.logReceived th.sig] }
      if th.sig = Interrupt ∨ th.sig = SIGTERM then s.set i { th with pc := Pc.load1 }
      else s.set i { th with pc := Pc.exitForced }
    | Pc.load1 =>
      let v := s.interruptCount
      s.set i { th with firstLoad := some v, pc := if v < 3 then Pc.add else Pc.logForce }
    | Pc.add =>
      let s := { s with interruptCount := (s.interruptCount + 1) % 2 ^ 32 }
      s.set i { th with added := true, pc := Pc.load2 }
    | Pc.load2 =>
      s.set i { th with pc := if s.interruptCount = 1 then Pc.cleanup else Pc.gone }
    | Pc.cleanup =>
      let s := { s with trace := s.trace ++ [Event.cleanupCall] }
      s.set i { th with invoked := true, pc := Pc.exit0 }
    | Pc.exit0 =>
      let s := { s with trace := s.trace ++ [Event.exitCall 0], exited := some 0 }
      s.set i { th with pc := Pc.gone }
    | Pc.logForce =>
      let s := { s with trace := s.trace ++ [Event.logForce] }
      s.set i { th with pc := Pc.exitForced }
    | Pc.exitForced =>
      let code := wrapInt (128 + th.sig)
      let s := { s with trace := s.trace ++ [Event.exitCall code], exited := some code }
      s.set i { th with pc := Pc.gone }
    | Pc.gone => s

/-- Run a schedule: the listed handlers take one step each, in order. -/
def run : List Tid → Sys → Sys
  | [], s => s
  | i :: rest, s => run rest (step i s)

/-- Both handlers got 0 from their load of line 43. -/
def bothSawZero (s : Sys) : Prop :=
  s.h1.firstLoad = some 0 ∧ s.h2.firstLoad = some 0

/-- Both handlers have called the cleanup callback. -/
def bothInvoked (s : Sys) : Prop :=
  s.h1.invoked = true ∧ s.h2.invoked = true

instance (s : Sys) : Decidable (bothSawZero s) :=
  inferInstanceAs (Decidable (s.h1.firstLoad = some 0 ∧ s.h2.firstLoad = some 0))

instance (s : Sys) : Decidable (bothInvoked s) :=
  inferInstanceAs (Decidable (s.h1.invoked = true ∧ s.h2.invoked = true))

/-- The schedule in which each handler logs, both load the counter at line 43
before either adds, the first handler then runs up to its cleanup call, and the
second follows. -/
def raceSchedule : List Tid :=
  [Tid.first, Tid.second, Tid.first, Tid.second,
   Tid.first, Tid.first, Tid.first, Tid.second, Tid.second, Tid.second]

/-- A handler is committed to the cleanup call once its load of line 46 has
returned 1. -/
def committed (th : Thread) : Prop := th.pc = Pc.cleanup ∨ th.invoked = true

/-- The record kept in a handler agrees with its position. -/
def threadOk (th : Thread) : Prop :=
  (th.pc = Pc.start ∨ th.pc = Pc.load1 ∨ th.pc = Pc.add → th.added = false) ∧
  (th.pc = Pc.load2 → th.added = true) ∧
  (committed th → th.added = true) ∧
  (th.invoked = true → th.pc = Pc.exit0 ∨ th.pc = Pc.gone)

/-- What holds in every state two handlers can reach from counter 0: the counter
is the number of handlers that have executed line 44, at most one handler is
committed to the cleanup call, and the trace holds one cleanup event per
handler that has made the call. -/
def Inv (s : Sys) : Prop :=
  s.interruptCount = (if s.h1.added then 1 else 0) + (if s.h2.added then 1 else 0) ∧
  threadOk s.h1 ∧ threadOk s.h2 ∧
  ¬ (committed s.h1 ∧ committed s.h2) ∧
  cleanupCalls s.trace = (if s.h1.invoked then 1 else 0) + (if s.h2.invoked then 1 else 0)

/-! ## The handler on a single signal -/

theorem wrapInt_interrupt : wrapInt (128 + Interrupt) = 130 := by decide

theorem wrapInt_sigterm : wrapInt (128 + SIGTERM) = 143 := by decide

theorem wrapInt_sigquit : wrapInt (128 + SIGQUIT) = 131 := by decide

theorem cleanupCalls_append (a b : List Event) :
    cleanupCalls (a ++ b) = cleanupCalls a + cleanupCalls b := by
  simp [cleanupCalls]

theorem logLines_append (a b : List Event) :
    logLines (a ++ b) = logLines a ++ logLines b := by
  induction a with
  | nil => rfl
  | cons e rest ih => cases e <;> simp [logLines, ih]

theorem exitCalls_append (a b : List Event) :
    exitCalls (a ++ b) = exitCalls a ++ exitCalls b := by
  induction a with
  | nil => rfl
  | cons e rest ih => cases e <;> simp [exitCalls, ih]

/-- C1: on an interrupt/terminate signal with the counter at 0, the handler
sets the counter to 1, calls the cleanup callback once (one cleanup event, the
callback applied once to the caller's state), calls `os.Exit` after it, and the
process ends with status 0. -/
theorem handler_first_signal {σ : Type} (cleanup : σ → σ) (sig : Signal) (w : World σ)
    (hsig : sig = Interrupt ∨ sig = SIGTERM) (h0 : w.interruptCount = 0) :
    handler Terminator.real cleanup sig w =
      { interruptCount := 1
        ext := cleanup w.ext
        trace := w.trace ++ [Event.logReceived sig, Event.cleanupCall, Event.exitCall 0]
        exited := some 0 } := by
  simp [handler, hsig, emit, LoadUint32, AddUint32, callCleanup, osExit, h0]

theorem handler_first_signal_witness :
    handler Terminator.real (fun e : Nat => e + 7) SIGTERM (World.init 0) =
      { interruptCount := 1
        ext := 7
        trace := [Event.logReceived SIGTERM, Event.cleanupCall, Event.exitCall 0]
        exited := some 0 } :=
  handler_first_signal (fun e : Nat => e + 7) SIGTERM (World.init 0) (Or.inr rfl) rfl

/-- C2: on an interrupt/terminate signal number `sig` with the counter at 3 or
more, the handler does not call the cleanup callback, leaves the counter as it
is, and the process ends with status `128 + sig`: 130 for SIGINT, 143 for
SIGTERM. -/
theorem handler_fourth_signal {σ : Type} (cleanup : σ → σ) (sig : Signal) (w : World σ)
    (hsig : sig = Interrupt ∨ sig = SIGTERM) (h3 : 3 ≤ w.interruptCount) :
    handler Terminator.real cleanup sig w =
        { w with
          trace := w.trace ++ [Event.logReceived sig, Event.logForce, Event.exitCall (128 + sig)]
          exited := some (128 + sig) }
      ∧ 128 + Interrupt = 130 ∧ 128 + SIGTERM = 143 := by
  have hn : ¬ w.interruptCount < 3 := by omega
  refine ⟨?_, by decide, by decide⟩
  rcases hsig with h | h <;> subst h
  · simp [handler, emit, LoadUint32, osExit, exitForced, hn, wrapInt_interrupt]
    decide
  · simp [handler, emit, LoadUint32, osExit, exitForced, hn, wrapInt_sigterm]
    decide

theorem handler_fourth_signal_witness :
    handler Terminator.real (fun e : Nat => e + 7) Interrupt
        { interruptCount := 3, ext := 7, trace := [], exited := none } =
        { interruptCount := 3
          ext := 7
          trace := [Event.logReceived Interrupt, Event.logForce, Event.exitCall (128 + Interrupt)]
          exited := some (128 + Interrupt) }
      ∧ 128 + Interrupt = 130 ∧ 128 + SIGTERM = 143 :=
  handler_fourth_signal (fun e : Nat => e + 7) Interrupt
    { interruptCount := 3, ext := 7, trace := [], exited := none } (Or.inl rfl) (by decide)

/-- C3: on an interrupt/terminate signal with the counter at 1 or 2, under
either terminator, the handler only adds 1 to the counter and returns: it
records no cleanup call and no exit call, and the process has not exited. -/
theorem handler_second_third_signal {σ : Type} (t : Terminator) (cleanup : σ → σ)
    (sig : Signal) (w : World σ) (hsig : sig = Interrupt ∨ sig = SIGTERM)
    (h12 : w.interruptCount = 1 ∨ w.interruptCount = 2) :
    handler t cleanup sig w =
        { w with
          interruptCount := w.interruptCount + 1
          trace := w.trace ++ [Event.logReceived sig] }
      ∧ cleanupCalls (handler t cleanup sig w).trace = cleanupCalls w.trace
      ∧ exitCalls (handler t cleanup sig w).trace = exitCalls w.trace
      ∧ (handler t cleanup sig w).ext = w.ext
      ∧ (handler t cleanup sig w).exited = w.exited := by
  have key : handler t cleanup sig w =
        { w with
          interruptCount := w.interruptCount + 1
          trace := w.trace ++ [Event.logReceived sig] } := by
    rcases h12 with h | h <;>
      simp [handler, hsig, emit, LoadUint32, AddUint32, h]
  rw [key]
  simp [cleanupCalls_append, exitCalls_append, cleanupCalls, exitCalls]

theorem handler_second_third_signal_witness :
    handler Terminator.real (fun e : Nat => e + 7) Interrupt
        { interruptCount := 2, ext := 7, trace := [], exited := none } =
        { interruptCount := 2 + 1
          ext := 7
          trace := [] ++ [Event.logReceived Interrupt]
          exited := none }
      ∧ cleanupCalls (handler Terminator.real (fun e : Nat => e + 7) Interrupt
          { interruptCount := 2, ext := 7, trace := [], exited := none }).trace = cleanupCalls []
      ∧ exitCalls (handler Terminator.real (fun e : Nat => e + 7) Interrupt
          { interruptCount := 2, ext := 7, trace := [], exited := none }).trace = exitCalls []
      ∧ (handler Terminator.real (fun e : Nat => e + 7) Interrupt
          { interruptCount := 2, ext := 7, trace := [], exited := none }).ext = 7
      ∧ (handler Terminator.real (fun e : Nat => e + 7) Interrupt
          { interruptCount := 2, ext := 7, trace := [], exited := none }).exited = none :=
  handler_second_third_signal Terminator.real (fun e : Nat => e + 7) Interrupt
    { interruptCount := 2, ext := 7, trace := [], exited := none } (Or.inl rfl) (Or.inr rfl)

/-- C4: on SIGQUIT, whatever the counter, the trace so far and the terminator,
the handler calls `os.Exit(131)` and nothing else besides the log line: the
counter and the caller's state are unchanged and no cleanup call is recorded;
with the real terminator the process ends with status 131. -/
theorem handler_sigquit {σ : Type} (cleanup : σ → σ) (w : World σ) :
    handler Terminator.real cleanup SIGQUIT w =
        { w with
          trace := w.trace ++ [Event.logReceived SIGQUIT, Event.exitCall 131]
          exited := some 131 }
      ∧ handler Terminator.stub cleanup SIGQUIT w =
        { w with trace := w.trace ++ [Event.logReceived SIGQUIT, Event.exitCall 131] }
      ∧ 128 + SIGQUIT = 131 := by
  have h1 : ¬ (SIGQUIT = Interrupt ∨ SIGQUIT = SIGTERM) := by decide
  refine ⟨?_, ?_, by decide⟩ <;>
    simp [handler, h1, emit, osExit, exitForced, wrapInt_sigquit]

/-- C5: the monitored signals always contain SIGINT and SIGTERM, contain
SIGQUIT exactly when `DEBUG` reads as the empty string, and contain nothing
else; when `DEBUG` is not empty, delivering SIGQUIT changes nothing in the
state of the process: no handler runs. -/
theorem signals_spec (env : List (String × String)) :
    Interrupt ∈ signals env ∧ SIGTERM ∈ signals env
      ∧ (SIGQUIT ∈ signals env ↔ Getenv env "DEBUG" = "")
      ∧ (∀ s ∈ signals env, s = Interrupt ∨ s = SIGTERM ∨ s = SIGQUIT)
      ∧ (Getenv env "DEBUG" ≠ "" →
          ∀ (σ : Type) (t : Terminator) (cleanup : σ → σ) (w : World σ),
            deliver env t cleanup SIGQUIT w = w) := by
  have hq1 : ¬ SIGQUIT = Interrupt := by decide
  have hq2 : ¬ SIGQUIT = SIGTERM := by decide
  by_cases h : Getenv env "DEBUG" = ""
  · simp [signals, h]
  · simp [signals, h, hq1, hq2, deliver]

theorem signals_spec_witness :
    Getenv [("DEBUG", "1")] "DEBUG" ≠ ""
      ∧ signals [("DEBUG", "1")] = [Interrupt, SIGTERM]
      ∧ deliver [("DEBUG", "1")] Terminator.real (fun e : Nat => e + 7) SIGQUIT (World.init 0)
          = World.init 0 :=
  ⟨by decide, by decide,
    (signals_spec [("DEBUG", "1")]).2.2.2.2 (by decide) Nat Terminator.real
      (fun e : Nat => e + 7) (World.init 0)⟩

/-- C7: with the counter at 2 (two interrupt/terminate signals handled, the
cleanup of the first still running), a third SIGINT makes the handler raise the
counter to 3 and return: no `os.Exit` is called and the process has not
exited, whereas the doc comment of `Trap` promises a direct termination. -/
theorem handler_third_signal_no_exit :
    handler Terminator.real (fun e : Nat => e + 7) Interrupt
        { interruptCount := 2, ext := 0, trace := [], exited := none } =
      { interruptCount := 3, ext := 0, trace := [Event.logReceived Interrupt], exited := none } := by
  decide

/-- C8, as stated, fails: with `DEBUG=1` in the environment, a non-empty value,
SIGQUIT is not among the signals `Trap` subscribes to. -/
theorem debug_set_sigquit_not_subscribed :
    Getenv [("DEBUG", "1")] "DEBUG" ≠ "" ∧ SIGQUIT ∉ signals [("DEBUG", "1")] := by
  decide

/-- C8, amended: for every non-empty value of `DEBUG`, SIGQUIT is not among the
signals `Trap` handles; when it arrives at a running process no handler of
`Trap` runs, the cleanup callback is not called, the counter, the caller's
state and the trace stay as they are, and the process is left to the default
disposition of the runtime: it ends exactly when that default ends it, with
the status the default gives. -/
theorem debug_set_sigquit_default {σ : Type} (env : List (String × String))
    (t : Terminator) (cleanup : σ → σ) (dflt : Signal → Option Int) (w : World σ)
    (hd : Getenv env "DEBUG" ≠ "") (hw : w.exited = none) :
    SIGQUIT ∉ signals env
      ∧ receive env t cleanup dflt SIGQUIT w = { w with exited := dflt SIGQUIT }
      ∧ cleanupCalls (receive env t cleanup dflt SIGQUIT w).trace = cleanupCalls w.trace := by
  have hq1 : ¬ SIGQUIT = Interrupt := by decide
  have hq2 : ¬ SIGQUIT = SIGTERM := by decide
  have hmem : SIGQUIT ∉ signals env := by simp [signals, hd, hq1, hq2]
  have hrec : receive env t cleanup dflt SIGQUIT w = { w with exited := dflt SIGQUIT } := by
    simp [receive, hw, hmem]
  exact ⟨hmem, hrec, by rw [hrec]⟩

theorem debug_set_sigquit_default_witness :
    SIGQUIT ∉ signals [("DEBUG", "1")]
      ∧ receive [("DEBUG", "1")] Terminator.real (fun e : Nat => e + 7)
          (fun _ => some 2) SIGQUIT (World.init 0)
          = { World.init 0 with exited := (fun _ => some 2) SIGQUIT }
      ∧ cleanupCalls (receive [("DEBUG", "1")] Terminator.real (fun e : Nat => e + 7)
          (fun _ => some 2) SIGQUIT (World.init 0)).trace = cleanupCalls (World.init 0).trace :=
  debug_set_sigquit_default [("DEBUG", "1")] Terminator.real (fun e : Nat => e + 7)
    (fun _ => some 2) (World.init 0) (by decide) rfl

/-- C9, as stated, fails: on a second interrupt signal (counter 1) the handler
does produce a log line. -/
theorem handler_second_signal_logs :
    logLines (handler Terminator.real (fun e : Nat => e + 7) Interrupt
        { interruptCount := 1, ext := 0, trace := [], exited := none }).trace ≠ [] := by
  decide

/-- C9, amended: on an interrupt/terminate signal with the counter at 1 or 2
the handler produces exactly one log line, the "Received signal" line of line
39, and no "Force shutdown" line. -/
theorem handler_second_third_signal_log {σ : Type} (t : Terminator) (cleanup : σ → σ)
    (sig : Signal) (w : World σ) (hsig : sig = Interrupt ∨ sig = SIGTERM)
    (h12 : w.interruptCount = 1 ∨ w.interruptCount = 2) :
    logLines (handler t cleanup sig w).trace = logLines w.trace ++ [Event.logReceived sig] := by
  have key : (handler t cleanup sig w).trace = w.trace ++ [Event.logReceived sig] := by
    rcases h12 with h | h <;>
      simp [handler, hsig, emit, LoadUint32, AddUint32, h]
  rw [key, logLines_append]
  rfl

theorem handler_second_third_signal_log_witness :
    logLines (handler Terminator.stub (fun e : Nat => e + 7) SIGTERM
        { interruptCount := 1, ext := 0, trace := [Event.logForce], exited := none }).trace
      = logLines [Event.logForce] ++ [Event.logReceived SIGTERM] :=
  handler_second_third_signal_log Terminator.stub (fun e : Nat => e + 7) SIGTERM
    { interruptCount := 1, ext := 0, trace := [Event.logForce], exited := none }
    (Or.inr rfl) (Or.inl rfl)

/-! ## Sequences of signals under the recording stub -/

theorem handler_stub_effect {σ : Type} (cleanup : σ → σ) (sig : Signal) (w : World σ) :
    (handler Terminator.stub cleanup sig w).exited = w.exited
      ∧ cleanupCalls (handler Terminator.stub cleanup sig w).trace =
          cleanupCalls w.trace +
            (if (sig = Interrupt ∨ sig = SIGTERM) ∧ w.interruptCount = 0 then 1 else 0)
      ∧ ((handler Terminator.stub cleanup sig w).interruptCount = 0 ↔
          w.interruptCount = 0 ∧ ¬ (sig = Interrupt ∨ sig = SIGTERM)) := by
  obtain ⟨c, e, tr, ex⟩ := w
  by_cases hsig : sig = Interrupt ∨ sig = SIGTERM
  · by_cases h3 : c < 3
    · have hmod : (c + 1) % 4294967296 = c + 1 := Nat.mod_eq_of_lt (by omega)
      by_cases h0 : c = 0
      · subst h0
        simp [handler, hsig, emit, LoadUint32, AddUint32, callCleanup, osExit, exitForced,
          cleanupCalls]
      · simp [handler, hsig, emit, LoadUint32, AddUint32, h3, hmod, h0, cleanupCalls]
    · have h0 : c ≠ 0 := by omega
      simp [handler, hsig, emit, LoadUint32, osExit, exitForced, h3, h0, cleanupCalls]
  · simp [handler, hsig, emit, osExit, exitForced, cleanupCalls]

theorem handleAll_stub_cleanupCalls {σ : Type} (cleanup : σ → σ) (sigs : List Signal) :
    ∀ w : World σ, w.exited = none →
      cleanupCalls (handleAll Terminator.stub cleanup sigs w).trace =
        cleanupCalls w.trace +
          (if w.interruptCount = 0 ∧ ∃ s ∈ sigs, s = Interrupt ∨ s = SIGTERM then 1 else 0) := by
  induction sigs with
  | nil => intro w _; simp [handleAll]
  | cons sig rest ih =>
    intro w hw
    obtain ⟨hex, hcl, hcnt⟩ := handler_stub_effect cleanup sig w
    have ih1 := ih (handler Terminator.stub cleanup sig w) (by rw [hex, hw])
    simp only [handleAll, hw, Option.isSome_none, Bool.false_eq_true, if_false]
    rw [ih1, hcl]
    by_cases hsig : sig = Interrupt ∨ sig = SIGTERM
    · by_cases h0 : w.interruptCount = 0
      · simp [hsig, h0, hcnt]
      · simp [hsig, h0, hcnt]
    · by_cases h0 : w.interruptCount = 0
      · simp [hsig, h0, hcnt]
      · simp [hsig, h0, hcnt]

/-- C6: for every finite sequence of signals handled one after another from
counter 0 with the recording stub for `os.Exit`, the cleanup callback is called
at most once in total, and exactly once when the sequence contains an
interrupt/terminate signal. -/
theorem cleanup_at_most_once {σ : Type} (cleanup : σ → σ) (e : σ) (sigs : List Signal) :
    cleanupCalls (handleAll Terminator.stub cleanup sigs (World.init e)).trace ≤ 1
      ∧ ((∃ s ∈ sigs, s = Interrupt ∨ s = SIGTERM) →
          cleanupCalls (handleAll Terminator.stub cleanup sigs (World.init e)).trace = 1) := by
  have h := handleAll_stub_cleanupCalls cleanup sigs (World.init e) rfl
  have h0 : cleanupCalls (World.init e).trace = 0 := rfl
  have hc : (World.init e).interruptCount = 0 := rfl
  rw [h, h0]
  constructor
  · split <;> simp
  · intro hex
    simp [hc, hex]

theorem cleanup_at_most_once_witness :
    (∃ s ∈ [SIGQUIT, Interrupt, SIGTERM, SIGQUIT, Interrupt, Interrupt, SIGTERM],
        s = Interrupt ∨ s = SIGTERM)
      ∧ cleanupCalls (handleAll Terminator.stub (fun e : Nat => e + 7)
          [SIGQUIT, Interrupt, SIGTERM, SIGQUIT, Interrupt, Interrupt, SIGTERM]
          (World.init 0)).trace = 1 :=
  ⟨⟨Interrupt, by decide, Or.inl rfl⟩,
    (cleanup_at_most_once (fun e : Nat => e + 7) 0
      [SIGQUIT, Interrupt, SIGTERM, SIGQUIT, Interrupt, Interrupt, SIGTERM]).2
      ⟨Interrupt, by decide, Or.inl rfl⟩⟩

/-! ## Two handlers at once: the invariant -/

theorem inv_init (sig1 sig2 : Signal) : Inv (Sys.init sig1 sig2) := by
  simp [Inv, Sys.init, Thread.spawn, threadOk, committed, cleanupCalls]

theorem inv_step (i : Tid) (s : Sys) (h : Inv s) : Inv (step i s) := by
  obtain ⟨c, tr, ex, ⟨sg1, pc1, fl1, ad1, iv1⟩, ⟨sg2, pc2, fl2, ad2, iv2⟩⟩ := s
  unfold step
  by_cases hex : ex.isSome = true
  · simpa [hex] using h
  · simp only [hex]
    cases i
    · cases pc1 <;> cases ad1 <;> cases ad2 <;> cases iv1 <;> cases iv2 <;>
        simp [Inv, threadOk, committed, Sys.get, Sys.set, cleanupCalls_append, cleanupCalls] at h ⊢ <;>
        first | done | omega | (split <;> simp_all) | simp_all
    · cases pc2 <;> cases ad1 <;> cases ad2 <;> cases iv1 <;> cases iv2 <;>
        simp [Inv, threadOk, committed, Sys.get, Sys.set, cleanupCalls_append, cleanupCalls] at h ⊢ <;>
        first | done | omega | (split <;> simp_all) | simp_all

/-- One handler stepping alone from a fresh start does to the counter, the
trace and the exit status what the handler function with the real terminator
does: the atomic steps are a cut of the same body. -/
theorem run_alone_eq_handler (sig sig2 : Signal) (c : Nat) (tr : List Event) :
    (run [Tid.first, Tid.first, Tid.first, Tid.first, Tid.first, Tid.first]
        { interruptCount := c, trace := tr, exited := none,
          h1 := Thread.spawn sig, h2 := Thread.spawn sig2 }).interruptCount
      = (handler Terminator.real id sig
          ({ interruptCount := c, ext := (), trace := tr, exited := none } : World Unit)).interruptCount
    ∧ (run [Tid.first, Tid.first, Tid.first, Tid.first, Tid.first, Tid.first]
        { interruptCount := c, trace := tr, exited := none,
          h1 := Thread.spawn sig, h2 := Thread.spawn sig2 }).trace
      = (handler Terminator.real id sig
          ({ interruptCount := c, ext := (), trace := tr, exited := none } : World Unit)).trace
    ∧ (run [Tid.first, Tid.first, Tid.first, Tid.first, Tid.first, Tid.first]
        { interruptCount := c, trace := tr, exited := none,
          h1 := Thread.spawn sig, h2 := Thread.spawn sig2 }).exited
      = (handler Terminator.real id sig
          ({ interruptCount := c, ext := (), trace := tr, exited := none } : World Unit)).exited := by
  by_cases hsig : sig = Interrupt ∨ sig = SIGTERM
  · by_cases h3 : c < 3
    · have hmod : (c + 1) % 4294967296 = c + 1 := Nat.mod_eq_of_lt (by omega)
      by_cases h0 : c = 0
      · subst h0
        simp [run, step, Sys.get, Sys.set, Thread.spawn, handler, hsig, emit, LoadUint32,
          AddUint32, callCleanup, osExit]
      · simp [run, step, Sys.get, Sys.set, Thread.spawn, handler, hsig, emit, LoadUint32,
          AddUint32, h3, hmod, h0]
    · simp [run, step, Sys.get, Sys.set, Thread.spawn, handler, hsig, emit, LoadUint32,
        osExit, exitForced, h3]
  · simp [run, step, Sys.get, Sys.set, Thread.spawn, handler, hsig, emit, osExit, exitForced]

theorem inv_run (sched : List Tid) : ∀ s : Sys, Inv s → Inv (run sched s) := by
  induction sched with
  | nil => intro s h; exact h
  | cons i rest ih => intro s h; exact ih (step i s) (inv_step i s h)

theorem inv_not_bothInvoked (s : Sys) (h : Inv s) : ¬ bothInvoked s := by
  intro hb
  exact h.2.2.2.1 ⟨Or.inr hb.1, Or.inr hb.2⟩

theorem inv_cleanupCalls_le (s : Sys) (h : Inv s) : cleanupCalls s.trace ≤ 1 := by
  have hb := inv_not_bothInvoked s h
  have hc := h.2.2.2.2
  unfold bothInvoked at hb
  rw [hc]
  cases h1 : s.h1.invoked <;> cases h2 : s.h2.invoked <;> simp_all

/-- C10, as stated, fails: from counter 0 no interleaving of two handlers lets
both of them call the cleanup callback, whatever they got from the load of
line 43. -/
theorem no_double_cleanup :
    ¬ ∃ (sig1 sig2 : Signal) (sched : List Tid),
        (sig1 = Interrupt ∨ sig1 = SIGTERM) ∧ (sig2 = Interrupt ∨ sig2 = SIGTERM)
          ∧ bothSawZero (run sched (Sys.init sig1 sig2))
          ∧ bothInvoked (run sched (Sys.init sig1 sig2)) := by
  rintro ⟨sig1, sig2, sched, -, -, -, hb⟩
  exact inv_not_bothInvoked _ (inv_run sched _ (inv_init sig1 sig2)) hb

/-- C10, amended: for two interrupt/terminate handlers started at counter 0
there is an interleaving in which both get 0 from the load of line 43, and in
it the cleanup callback is called once, by one handler only; in every
interleaving the callback is called at most once and never by both handlers. -/
theorem race_window (sig1 sig2 : Signal) (h1 : sig1 = Interrupt ∨ sig1 = SIGTERM)
    (h2 : sig2 = Interrupt ∨ sig2 = SIGTERM) :
    (∃ sched, bothSawZero (run sched (Sys.init sig1 sig2))
        ∧ cleanupCalls (run sched (Sys.init sig1 sig2)).trace = 1)
      ∧ ∀ sched, cleanupCalls (run sched (Sys.init sig1 sig2)).trace ≤ 1
        ∧ ¬ bothInvoked (run sched (Sys.init sig1 sig2)) := by
  refine ⟨⟨raceSchedule, ?_⟩, fun sched => ?_⟩
  · rcases h1 with h | h <;> rcases h2 with h' | h' <;> subst h <;> subst h' <;> decide
  · have hi := inv_run sched _ (inv_init sig1 sig2)
    exact ⟨inv_cleanupCalls_le _ hi, inv_not_bothInvoked _ hi⟩

theorem race_window_witness :
    (∃ sched, bothSawZero (run sched (Sys.init Interrupt SIGTERM))
        ∧ cleanupCalls (run sched (Sys.init Interrupt SIGTERM)).trace = 1)
      ∧ ∀ sched, cleanupCalls (run sched (Sys.init Interrupt SIGTERM)).trace ≤ 1
        ∧ ¬ bothInvoked (run sched (Sys.init Interrupt SIGTERM)) :=
  race_window Interrupt SIGTERM (Or.inl rfl) (Or.inr rfl)

end Trap
